import Mathlib

/-!
# Verification of the digital bulletin board

Shallow embedding of `bulletin.py` (image rotator) and `image_fetcher.py`
(Google Drive folder synchronizer), with theorems settling the spec's claims.

Modelling conventions:
* Timestamps (`time.time()` results, file mtimes, remote modified times) are
  rationals `ℚ`: Python compares and subtracts them as real numbers.
* A directory is given by the list of its entries in iteration order.
* `random.shuffle` is modelled by an explicit reordering function together
  with the hypothesis that it permutes its input.
* Python's `%` raises `ZeroDivisionError` on a zero divisor and otherwise,
  for a positive divisor, returns the floored remainder in `[0, n)`, which
  for integer arguments coincides with `Int.emod`; fallible paths return
  `Except PyErr`.
* Drawing on the pygame back buffer is modelled as the list of draw
  operations a call emits, in order; `pygame.display.flip` is the single
  presentation operation.
-/

namespace Bulletin

/-- Python's `str.lower()` on the character sequence (for the ASCII
extension strings compared here this is exactly per-character lowercasing;
stated over `String.data` so that it evaluates by kernel reduction). -/
def lower (s : String) : String := ⟨s.data.map Char.toLower⟩

/-- Python's `str.endswith(suffix)`: the suffix relation on the character
sequences. -/
def endswith (s suff : String) : Bool := suff.data.isSuffixOf s.data

/-- Python exceptions that the modelled code paths can raise. -/
inductive PyErr where
  | zeroDivisionError
  | indexError
deriving DecidableEq

/-- The configuration fields of `bulletin.py` that the modelled operations
read (`config.json` keys; `supported_formats` is kept as loaded, lowercasing
happens where the source lowercases). -/
structure RotatorConfig where
  supportedFormats : List String
  shuffleImages : Bool
  backgroundColor : List Nat
  screenWidth : Nat
  screenHeight : Nat
  displayDuration : ℚ
deriving DecidableEq

/-- One entry of the image directory as `Path.iterdir` yields it:
its path rendered as a string, whether it is a regular file, and its
`Path.suffix` (extension including the dot, possibly empty). -/
structure FileEntry where
  path : String
  isFile : Bool
  suffix : String
deriving DecidableEq

/-- The rotator's mutable state: `self.image_list`,
`self.current_image_index`, `self.last_update_time`. -/
structure RotatorState where
  imageList : List String
  currentImageIndex : Nat
  lastUpdateTime : ℚ
deriving DecidableEq

/-- Models `DigitalBulletinBoard.scan_images` (bulletin.py:94-121): rebuilds
`image_list` from the directory entries, keeping regular files whose
lowercased suffix is among the lowercased supported formats, in iteration
order. This is the loop of lines 106-111 that rebuilds the list before
the shuffle. -/
def scan_filtered (cfg : RotatorConfig) (entries : List FileEntry) :
    List String :=
  (entries.filter (fun e => e.isFile &&
    decide (lower e.suffix ∈ cfg.supportedFormats.map lower))).map
    FileEntry.path

/-- The rest of `scan_images` (bulletin.py:113-121): returns `False`
(leaving `image_list` empty, as line 106 cleared it) when nothing matched,
otherwise shuffles when configured and returns `True`. The pair is
(returned bool, resulting `image_list`). -/
def scan_images (cfg : RotatorConfig) (entries : List FileEntry)
    (shuffleFn : List String → List String) : Bool × List String :=
  let imageList := scan_filtered cfg entries
  if imageList.isEmpty then (false, [])
  else (true, if cfg.shuffleImages then shuffleFn imageList else imageList)

/-- Models `DigitalBulletinBoard.display_current_image` (bulletin.py:214-223):
returns the path it renders (`none` when the list is empty and it returns
early); raises `IndexError` when the index is out of range of a non-empty
list, as `self.image_list[self.current_image_index]` would. -/
def display_current_image (s : RotatorState) : Except PyErr (Option String) :=
  if s.imageList.isEmpty then .ok none
  else if h : s.currentImageIndex < s.imageList.length then
    .ok (some (s.imageList.get ⟨s.currentImageIndex, h⟩))
  else .error .indexError

/-- Models `DigitalBulletinBoard.advance_image` (bulletin.py:205-212): no-op on an
empty list; otherwise increments the index modulo the length, displays the
new current image, and resets `last_update_time` to `now`. Returns the new
state and the rendered path. -/
def advance_image (s : RotatorState) (now : ℚ) :
    Except PyErr (RotatorState × Option String) :=
  if s.imageList.isEmpty then .ok (s, none)
  else
    let s1 : RotatorState :=
      ⟨s.imageList, (s.currentImageIndex + 1) % s.imageList.length,
        s.lastUpdateTime⟩
    match display_current_image s1 with
    | .error e => .error e
    | .ok p => .ok (⟨s1.imageList, s1.currentImageIndex, now⟩, p)

/-- The `K_LEFT` branch of `DigitalBulletinBoard.handle_events`
(bulletin.py:192-195): `self.current_image_index =
(self.current_image_index - 1) % len(self.image_list)` followed by
`self.display_current_image()`. Python's `%` raises `ZeroDivisionError`
when the list is empty; `last_update_time` is not touched. -/
def handle_left_key (s : RotatorState) :
    Except PyErr (RotatorState × Option String) :=
  if s.imageList.length = 0 then .error .zeroDivisionError
  else
    let i := (((s.currentImageIndex : Int) - 1) %
      (s.imageList.length : Int)).toNat
    let s1 : RotatorState := ⟨s.imageList, i, s.lastUpdateTime⟩
    match display_current_image s1 with
    | .error e => .error e
    | .ok p => .ok (s1, p)

/-- The `K_r` branch of `DigitalBulletinBoard.handle_events`
(bulletin.py:199-202): re-runs `scan_images`, which rebuilds
`self.image_list`; `current_image_index` and `last_update_time` are not
touched. -/
def handle_rescan_key (cfg : RotatorConfig) (entries : List FileEntry)
    (shuffleFn : List String → List String) (s : RotatorState) :
    RotatorState :=
  ⟨(scan_images cfg entries shuffleFn).2, s.currentImageIndex,
    s.lastUpdateTime⟩

/-- Startup of `DigitalBulletinBoard.run` (bulletin.py:225-235): the
constructor sets `image_list = []`, `current_image_index = 0`,
`last_update_time = now`; `run` performs the initial scan and exits
(`none`) when it fails. -/
def runInit (cfg : RotatorConfig) (entries : List FileEntry)
    (shuffleFn : List String → List String) (now : ℚ) :
    Option RotatorState :=
  let r := scan_images cfg entries shuffleFn
  if r.1 then some ⟨r.2, 0, now⟩ else none

/-- The spec's RotatorState invariant `0 ≤ index < length` (the lower
bound is inherent in `Nat`). -/
def rotInv (s : RotatorState) : Prop :=
  s.currentImageIndex < s.imageList.length

/-- A surface as pygame sees it: its pixel dimensions. -/
structure Surface where
  width : Nat
  height : Nat
deriving DecidableEq

/-- One drawing operation on the display back buffer. -/
inductive DrawOp where
  | fill (color : List Nat)
  | blit (surf : Surface) (pos : Int × Int)
  | flip
deriving DecidableEq

/-- Whether a draw operation is the presentation call
(`pygame.display.flip`). -/
def isFlip : DrawOp → Bool
  | .flip => true
  | _ => false

/-- Top-left position of a surface centered on the screen:
`image_rect.center = screen_rect.center` in pygame integer arithmetic
sets `x = W//2 - w//2`, `y = H//2 - h//2`. -/
def centeredPos (screenW screenH : Nat) (surf : Surface) : Int × Int :=
  (((screenW / 2 : Nat) : Int) - ((surf.width / 2 : Nat) : Int),
   ((screenH / 2 : Nat) : Int) - ((surf.height / 2 : Nat) : Int))

/-- Models `DigitalBulletinBoard.display_image` (bulletin.py:157-178) as the list
of draw operations it emits: on `None` it returns immediately (line
159-160, empty trace); otherwise it fills the back buffer with the
background color, blits the surface centered, and flips once. -/
def display_image (cfg : RotatorConfig) (surface : Option Surface) :
    List DrawOp :=
  match surface with
  | none => []
  | some s =>
    [.fill cfg.backgroundColor,
     .blit s (centeredPos cfg.screenWidth cfg.screenHeight s),
     .flip]

/-- The dimension computation of
`DigitalBulletinBoard.load_and_scale_image` (bulletin.py:136-142):
`scale = min(screenW/imgW, screenH/imgH)`, output `(int(imgW*scale),
int(imgH*scale))`. Python's `int()` truncates toward zero, which on these
non-negative values is the floor. -/
def load_and_scale_dims (screenW screenH imgW imgH : Nat) : Nat × Nat :=
  let scale : ℚ := min ((screenW : ℚ) / (imgW : ℚ)) ((screenH : ℚ) / (imgH : ℚ))
  ((⌊(imgW : ℚ) * scale⌋).toNat, (⌊(imgH : ℚ) * scale⌋).toNat)

/-! ## Folder synchronizer (`image_fetcher.py`, class `GoogleDriveSync`) -/

/-- A local file in the image directory: name, mtime (`stat().st_mtime`),
byte content, and whether it is a regular file (`iterdir` can also yield
directories; `cleanup_local_files` checks `is_file()`). -/
structure LocalFile where
  name : String
  mtime : ℚ
  content : List Nat
  isFile : Bool
deriving DecidableEq

/-- A remote record as the Drive listing returns it: id, name, and
`modifiedTime` already parsed to a timestamp (the source parses the
RFC-3339 string with `time.strptime`/`time.mktime`; we model the parsed
value). -/
structure DriveFile where
  id : String
  name : String
  modifiedTime : ℚ
deriving DecidableEq

/-- The `google_drive` configuration section plus the lowercased supported
formats the constructor computes (image_fetcher.py:21). -/
structure SyncConfig where
  syncInterval : ℚ
  supportedFormats : List String
deriving DecidableEq

/-- The synchronizer's mutable state: `self.last_sync` and the local image
directory contents. -/
structure SyncState where
  lastSync : ℚ
  fs : List LocalFile
deriving DecidableEq

/-- Models `GoogleDriveSync.is_supported_image` (image_fetcher.py:45-47):
`any(filename.lower().endswith(fmt) for fmt in self.supported_formats)`
(the stored formats are already lowercase). -/
def is_supported_image (supported : List String) (filename : String) : Bool :=
  supported.any (fun fmt => endswith (lower filename) fmt)

/-- Models `GoogleDriveSync.list_folder_files` (image_fetcher.py:49-70): empty
when the service is unavailable, otherwise the raw folder listing filtered
to supported image names. `raw` is what the Drive query returns (empty on
a transport error, which the source catches and turns into `[]`). -/
def list_folder_files (serviceOk : Bool) (raw : List DriveFile)
    (supported : List String) : List DriveFile :=
  if !serviceOk then []
  else raw.filter (fun f => is_supported_image supported f.name)

/-- Models `open(local_path, 'wb'); f.write(...)`: truncates an existing file of
that name (its mtime becomes the write time) or creates a new one. -/
def writeLocal (fs : List LocalFile) (name : String) (mtime : ℚ)
    (bytes : List Nat) : List LocalFile :=
  if fs.any (fun x => x.name == name) then
    fs.map (fun x => if x.name == name then ⟨name, mtime, bytes, x.isFile⟩ else x)
  else fs ++ [⟨name, mtime, bytes, true⟩]

/-- The fetch-and-write tail of `download_file` (image_fetcher.py:88-106):
`fetch` gives the remote bytes by file id (`none` models an exception
during the chunked download, caught at line 104 and reported as `False`).
Result: (returned bool, new directory contents, whether a transfer was
attempted). -/
def download_fetch (fs : List LocalFile) (f : DriveFile)
    (fetch : String → Option (List Nat)) (writeTime : ℚ) :
    Bool × List LocalFile × Bool :=
  match fetch f.id with
  | none => (false, fs, true)
  | some bytes => (true, writeLocal fs f.name writeTime bytes, true)

/-- Models `GoogleDriveSync.download_file` (image_fetcher.py:72-106): when a local
file of the same name exists with `local_mtime >= drive_mtime`, returns
`True` immediately without any transfer; otherwise fetches and writes.
Result: (returned bool, new directory contents, whether a transfer was
attempted). -/
def download_file (fs : List LocalFile) (f : DriveFile)
    (fetch : String → Option (List Nat)) (writeTime : ℚ) :
    Bool × List LocalFile × Bool :=
  match fs.find? (fun x => x.name == f.name) with
  | some lf =>
    if f.modifiedTime ≤ lf.mtime then (true, fs, false)
    else download_fetch fs f fetch writeTime
  | none => download_fetch fs f fetch writeTime

/-- The download loop of `sync` (image_fetcher.py:144-147): downloads each
record in order, counting successes. -/
def download_all (fs : List LocalFile) (files : List DriveFile)
    (fetch : String → Option (List Nat)) (writeTime : ℚ) :
    Nat × List LocalFile :=
  match files with
  | [] => (0, fs)
  | f :: rest =>
    let r := download_file fs f fetch writeTime
    let rec' := download_all r.2.1 rest fetch writeTime
    ((if r.1 then 1 else 0) + rec'.1, rec'.2)

/-- Models `GoogleDriveSync.cleanup_local_files` (image_fetcher.py:108-121):
walks the directory; each regular file with a supported image name absent
from the remote listing is unlinked; `unlinkOk` tells whether that unlink
succeeds (a failure is logged and the walk continues, the file staying on
disk). Returns the surviving directory contents. -/
def cleanup_local_files (fs : List LocalFile) (driveFiles : List DriveFile)
    (supported : List String) (unlinkOk : String → Bool) : List LocalFile :=
  match fs with
  | [] => []
  | lf :: rest =>
    if lf.isFile && is_supported_image supported lf.name &&
        !((driveFiles.map DriveFile.name).contains lf.name) then
      if unlinkOk lf.name then cleanup_local_files rest driveFiles supported unlinkOk
      else lf :: cleanup_local_files rest driveFiles supported unlinkOk
    else lf :: cleanup_local_files rest driveFiles supported unlinkOk

/-- Models `GoogleDriveSync.sync` (image_fetcher.py:123-155). Inputs beyond the
state: `serviceOk` (authentication succeeded at construction), `force`,
`currentTime` (`time.time()`), `raw` (what the Drive listing query would
return), `fetch`/`writeTime`/`unlinkOk` as above. Result: (returned bool,
new state, number of remote listings performed). Note line 152 updates
`last_sync` whenever the listing was non-empty, even when zero downloads
succeeded. -/
def sync (cfg : SyncConfig) (serviceOk : Bool) (st : SyncState)
    (force : Bool) (currentTime : ℚ) (raw : List DriveFile)
    (fetch : String → Option (List Nat)) (writeTime : ℚ)
    (unlinkOk : String → Bool) : Bool × SyncState × Nat :=
  if !serviceOk then (false, st, 0)
  else if !force && decide (currentTime - st.lastSync < cfg.syncInterval) then
    (true, st, 0)
  else
    let driveFiles := list_folder_files serviceOk raw cfg.supportedFormats
    if driveFiles.isEmpty then (false, st, 1)
    else
      let dl := download_all st.fs driveFiles fetch writeTime
      let fs2 := cleanup_local_files dl.2 driveFiles cfg.supportedFormats unlinkOk
      (decide (0 < dl.1), ⟨currentTime, fs2⟩, 1)

/-! ## Named concrete inputs used by witnesses and counterexamples -/

/-- A remote-content oracle under which every transfer fails. -/
def noFetch : String → Option (List Nat) := fun _ => none

/-- A remote-content oracle returning a fixed byte string. -/
def oneFetch : String → Option (List Nat) := fun _ => some [7]

/-- An unlink oracle under which every deletion succeeds. -/
def allUnlinkOk : String → Bool := fun _ => true

/-- An unlink oracle under which only deleting `B.jpg` fails. -/
def unlinkFailsB : String → Bool := fun n => !(n == "B.jpg")

/-- A concrete rotator configuration: `.jpg` only, shuffle off. -/
def cfgJpg : RotatorConfig :=
  ⟨[".jpg"], false, [0, 0, 0], 1920, 1080, 10⟩

/-! ## Helper lemmas -/

/-- A non-empty list is not `isEmpty`. -/
theorem isEmpty_false_of_ne_nil {α : Type} {l : List α} (h : l ≠ []) :
    l.isEmpty = false := by
  cases hl : l
  · exact absurd hl h
  · rfl

/-- When `scan_images` reports success, its list is a permutation of the
filtered directory listing (given that the shuffle function permutes). -/
theorem scan_images_snd_perm (cfg : RotatorConfig) (entries : List FileEntry)
    (shuffleFn : List String → List String)
    (hperm : ∀ l, (shuffleFn l).Perm l)
    (h : (scan_images cfg entries shuffleFn).1 = true) :
    ((scan_images cfg entries shuffleFn).2).Perm (scan_filtered cfg entries) := by
  unfold scan_images at h ⊢
  by_cases hE : (scan_filtered cfg entries).isEmpty = true
  · simp [hE] at h
  · simp only [hE, Bool.false_eq_true, if_false, if_neg] at h ⊢
    by_cases hs : cfg.shuffleImages = true
    · simpa [hs] using hperm (scan_filtered cfg entries)
    · simp [hs]

/-- When `scan_images` reports success, its list is non-empty. -/
theorem scan_images_snd_pos (cfg : RotatorConfig) (entries : List FileEntry)
    (shuffleFn : List String → List String)
    (hperm : ∀ l, (shuffleFn l).Perm l)
    (h : (scan_images cfg entries shuffleFn).1 = true) :
    0 < (scan_images cfg entries shuffleFn).2.length := by
  have hp := scan_images_snd_perm cfg entries shuffleFn hperm h
  rw [hp.length_eq]
  unfold scan_images at h
  by_cases hE : (scan_filtered cfg entries).isEmpty = true
  · simp [hE] at h
  · have : scan_filtered cfg entries ≠ [] := by
      intro hnil
      rw [hnil] at hE
      exact hE rfl
    exact List.length_pos.mpr this

/-- Closed form of `advance_image` on a non-empty list. -/
theorem advance_image_eq (s : RotatorState) (now : ℚ)
    (hne : s.imageList ≠ []) :
    advance_image s now =
      .ok (⟨s.imageList, (s.currentImageIndex + 1) % s.imageList.length, now⟩,
        s.imageList[(s.currentImageIndex + 1) % s.imageList.length]?) := by
  have hE : s.imageList.isEmpty = false := isEmpty_false_of_ne_nil hne
  have hlen : 0 < s.imageList.length := List.length_pos.mpr hne
  have hidx : (s.currentImageIndex + 1) % s.imageList.length <
      s.imageList.length := Nat.mod_lt _ hlen
  unfold advance_image display_current_image
  simp [hE, hidx, List.getElem?_eq_getElem, List.get_eq_getElem]

/-- Closed form of the left-key handler on a non-empty list. -/
theorem handle_left_key_eq (s : RotatorState) (hne : s.imageList ≠ []) :
    handle_left_key s =
      .ok (⟨s.imageList,
          (((s.currentImageIndex : Int) - 1) %
            (s.imageList.length : Int)).toNat,
          s.lastUpdateTime⟩,
        s.imageList[(((s.currentImageIndex : Int) - 1) %
          (s.imageList.length : Int)).toNat]?) := by
  have hE : s.imageList.isEmpty = false := isEmpty_false_of_ne_nil hne
  have hlen : 0 < s.imageList.length := List.length_pos.mpr hne
  have hlen0 : s.imageList.length ≠ 0 := Nat.pos_iff_ne_zero.mp hlen
  have hlenI : (0 : Int) < (s.imageList.length : Int) := by exact_mod_cast hlen
  have hnn : (0 : Int) ≤ ((s.currentImageIndex : Int) - 1) %
      (s.imageList.length : Int) :=
    Int.emod_nonneg _ (by exact_mod_cast hlen0)
  have hlt : ((s.currentImageIndex : Int) - 1) % (s.imageList.length : Int) <
      (s.imageList.length : Int) := Int.emod_lt_of_pos _ hlenI
  have hidx : (((s.currentImageIndex : Int) - 1) %
      (s.imageList.length : Int)).toNat < s.imageList.length := by omega
  unfold handle_left_key display_current_image
  simp [hE, hlen0, hidx, List.getElem?_eq_getElem, List.get_eq_getElem]

/-! ## C1: rescan and the index invariant -/

/-- C1, counterexample: with the rotator showing the third of three images
(index 2) and a rescan returning the single file `d.jpg`, the handler
(bulletin.py:199-202) replaces the list but leaves the index at 2 — not at
0 as claimed — and `0 ≤ index < length` fails (2 ≥ 1), so the invariant
does not survive every rescan. -/
theorem rescan_keeps_stale_index :
    (handle_rescan_key cfgJpg [⟨"d.jpg", true, ".jpg"⟩] id
      ⟨["a.jpg", "b.jpg", "c.jpg"], 2, 0⟩).currentImageIndex = 2 ∧
    ¬ rotInv (handle_rescan_key cfgJpg [⟨"d.jpg", true, ".jpg"⟩] id
      ⟨["a.jpg", "b.jpg", "c.jpg"], 2, 0⟩) := by
  refine ⟨rfl, ?_⟩
  simp only [rotInv]
  decide

/-- C1, amended: handling the rescan key re-runs `scan_images` and replaces
the image list wholesale, but leaves the current index (and the last-advance
time) unchanged rather than at 0; the invariant `0 ≤ index < length` holds
after the initial scan and after `advance(+1)`/`advance(-1)` on a non-empty
list, but after a rescan it holds only when the stale index is still below
the new list's length. -/
theorem rescan_replaces_list_and_invariant (cfg : RotatorConfig)
    (entries : List FileEntry) (shuffleFn : List String → List String)
    (s s0 sR sL : RotatorState) (pR pL : Option String) (now t : ℚ)
    (hperm : ∀ l, (shuffleFn l).Perm l)
    (h0 : runInit cfg entries shuffleFn t = some s0)
    (hne : s.imageList ≠ [])
    (hA : advance_image s now = .ok (sR, pR))
    (hL : handle_left_key s = .ok (sL, pL)) :
    (handle_rescan_key cfg entries shuffleFn s).imageList =
      (scan_images cfg entries shuffleFn).2 ∧
    (handle_rescan_key cfg entries shuffleFn s).currentImageIndex =
      s.currentImageIndex ∧
    (handle_rescan_key cfg entries shuffleFn s).lastUpdateTime =
      s.lastUpdateTime ∧
    rotInv s0 ∧ rotInv sR ∧ rotInv sL := by
  have hlen : 0 < s.imageList.length := List.length_pos.mpr hne
  refine ⟨rfl, rfl, rfl, ?_, ?_, ?_⟩
  · unfold runInit at h0
    by_cases hb : (scan_images cfg entries shuffleFn).1 = true
    · rw [if_pos hb] at h0
      injection h0 with h0
      rw [← h0]
      exact scan_images_snd_pos cfg entries shuffleFn hperm hb
    · rw [if_neg hb] at h0
      cases h0
  · rw [advance_image_eq s now hne] at hA
    injection hA with hA
    obtain ⟨h1, h2⟩ := Prod.mk.injEq .. ▸ hA
    rw [← h1]
    exact Nat.mod_lt _ hlen
  · have hlenI : (0 : Int) < (s.imageList.length : Int) := by exact_mod_cast hlen
    have hnn : (0 : Int) ≤ ((s.currentImageIndex : Int) - 1) %
        (s.imageList.length : Int) :=
      Int.emod_nonneg _ (by omega)
    have hlt : ((s.currentImageIndex : Int) - 1) % (s.imageList.length : Int) <
        (s.imageList.length : Int) := Int.emod_lt_of_pos _ hlenI
    rw [handle_left_key_eq s hne] at hL
    injection hL with hL
    obtain ⟨h1, h2⟩ := Prod.mk.injEq .. ▸ hL
    rw [← h1]
    show (((s.currentImageIndex : Int) - 1) %
      (s.imageList.length : Int)).toNat < s.imageList.length
    omega

/-- Witness for C1 (amended) at concrete inputs: initial scan of `d.jpg`,
a two-image state at index 1, and both advance directions. -/
theorem rescan_replaces_list_and_invariant_witness :
    runInit cfgJpg [⟨"d.jpg", true, ".jpg"⟩] id 0 = some ⟨["d.jpg"], 0, 0⟩ ∧
    (["a", "b"] : List String) ≠ [] ∧
    advance_image ⟨["a", "b"], 1, 3⟩ 9 = .ok (⟨["a", "b"], 0, 9⟩, some "a") ∧
    handle_left_key ⟨["a", "b"], 1, 3⟩ = .ok (⟨["a", "b"], 0, 3⟩, some "a") ∧
    ((handle_rescan_key cfgJpg [⟨"d.jpg", true, ".jpg"⟩] id
        ⟨["a", "b"], 1, 3⟩).imageList =
      (scan_images cfgJpg [⟨"d.jpg", true, ".jpg"⟩] id).2 ∧
    (handle_rescan_key cfgJpg [⟨"d.jpg", true, ".jpg"⟩] id
        ⟨["a", "b"], 1, 3⟩).currentImageIndex =
      (⟨["a", "b"], 1, 3⟩ : RotatorState).currentImageIndex ∧
    (handle_rescan_key cfgJpg [⟨"d.jpg", true, ".jpg"⟩] id
        ⟨["a", "b"], 1, 3⟩).lastUpdateTime =
      (⟨["a", "b"], 1, 3⟩ : RotatorState).lastUpdateTime ∧
    rotInv ⟨["d.jpg"], 0, 0⟩ ∧ rotInv ⟨["a", "b"], 0, 9⟩ ∧
    rotInv ⟨["a", "b"], 0, 3⟩) :=
  ⟨rfl, by simp, rfl, rfl,
   rescan_replaces_list_and_invariant cfgJpg [⟨"d.jpg", true, ".jpg"⟩] id
     ⟨["a", "b"], 1, 3⟩ ⟨["d.jpg"], 0, 0⟩ ⟨["a", "b"], 0, 9⟩
     ⟨["a", "b"], 0, 3⟩ (some "a") (some "a") 9 0
     (fun l => List.Perm.refl l) rfl (by simp) rfl rfl⟩

/-! ## C2: advance in both directions -/

/-- C2, counterexample: from state `(["a", "b"], index 0, last advance at
time 5)`, the left-key path (bulletin.py:192-195) moves to index 1 and
renders `b`, but leaves the time of last advance at 5 — it is not reset to
the current time (e.g. 9), unlike `advance_image`, which is the only path
that sets `last_update_time`. -/
theorem left_key_does_not_reset_timer :
    handle_left_key ⟨["a", "b"], 0, 5⟩ =
      .ok (⟨["a", "b"], 1, 5⟩, some "b") ∧ (5 : ℚ) ≠ 9 := by
  refine ⟨rfl, by norm_num⟩

/-- C2, amended: on a non-empty list, `advance_image` (the space/right-key
and timer path) sets the index to `(index + 1) mod length`, renders the new
current entry, and resets the time of last advance to now; the left-key
path sets the index to `(index + (-1)) mod length` (Python's floored `%`)
and renders the new current entry, but leaves the time of last advance
unchanged — only the `+1` direction resets it. -/
theorem advance_paths_spec (s : RotatorState) (now : ℚ)
    (sR sL : RotatorState) (pR pL : Option String)
    (hne : s.imageList ≠ [])
    (hA : advance_image s now = .ok (sR, pR))
    (hL : handle_left_key s = .ok (sL, pL)) :
    sR.imageList = s.imageList ∧
    (sR.currentImageIndex : Int) =
      ((s.currentImageIndex : Int) + 1) % (s.imageList.length : Int) ∧
    sR.lastUpdateTime = now ∧
    pR = s.imageList[sR.currentImageIndex]? ∧
    sL.imageList = s.imageList ∧
    (sL.currentImageIndex : Int) =
      ((s.currentImageIndex : Int) + (-1)) % (s.imageList.length : Int) ∧
    sL.lastUpdateTime = s.lastUpdateTime ∧
    pL = s.imageList[sL.currentImageIndex]? := by
  have hlen : 0 < s.imageList.length := List.length_pos.mpr hne
  have hlen0 : s.imageList.length ≠ 0 := Nat.pos_iff_ne_zero.mp hlen
  rw [advance_image_eq s now hne] at hA
  rw [handle_left_key_eq s hne] at hL
  injection hA with hA
  injection hL with hL
  obtain ⟨hR1, hR2⟩ := Prod.mk.injEq .. ▸ hA
  obtain ⟨hL1, hL2⟩ := Prod.mk.injEq .. ▸ hL
  subst hR1 hR2 hL1 hL2
  refine ⟨rfl, ?_, rfl, rfl, rfl, ?_, rfl, rfl⟩
  · show (((s.currentImageIndex + 1) % s.imageList.length : Nat) : Int) = _
    push_cast [Int.natCast_mod]
    ring_nf
  · have hnn : (0 : Int) ≤ ((s.currentImageIndex : Int) - 1) %
        (s.imageList.length : Int) :=
      Int.emod_nonneg _ (by omega)
    show ((((s.currentImageIndex : Int) - 1) %
        (s.imageList.length : Int)).toNat : Int) = _
    rw [Int.toNat_of_nonneg hnn, sub_eq_add_neg]

/-- Witness for C2 (amended) at the concrete two-image state. -/
theorem advance_paths_spec_witness :
    (["a", "b"] : List String) ≠ [] ∧
    advance_image ⟨["a", "b"], 0, 5⟩ 9 = .ok (⟨["a", "b"], 1, 9⟩, some "b") ∧
    handle_left_key ⟨["a", "b"], 0, 5⟩ = .ok (⟨["a", "b"], 1, 5⟩, some "b") ∧
    ((⟨["a", "b"], 1, 9⟩ : RotatorState).imageList = ["a", "b"] ∧
    (((⟨["a", "b"], 1, 9⟩ : RotatorState).currentImageIndex : Int)) =
      (((0 : Nat) : Int) + 1) % ((["a", "b"] : List String).length : Int) ∧
    (⟨["a", "b"], 1, 9⟩ : RotatorState).lastUpdateTime = 9 ∧
    (some "b" : Option String) =
      (["a", "b"] : List String)[(⟨["a", "b"], 1, 9⟩ : RotatorState).currentImageIndex]? ∧
    (⟨["a", "b"], 1, 5⟩ : RotatorState).imageList = ["a", "b"] ∧
    (((⟨["a", "b"], 1, 5⟩ : RotatorState).currentImageIndex : Int)) =
      (((0 : Nat) : Int) + (-1)) % ((["a", "b"] : List String).length : Int) ∧
    (⟨["a", "b"], 1, 5⟩ : RotatorState).lastUpdateTime = 5 ∧
    (some "b" : Option String) =
      (["a", "b"] : List String)[(⟨["a", "b"], 1, 5⟩ : RotatorState).currentImageIndex]?) :=
  ⟨by simp, rfl, rfl,
   advance_paths_spec ⟨["a", "b"], 0, 5⟩ 9 ⟨["a", "b"], 1, 9⟩
     ⟨["a", "b"], 1, 5⟩ (some "b") (some "b") (by simp) rfl rfl⟩

/-! ## C3: rendering -/

/-- C3, counterexample: `display_image` on a null surface (bulletin.py:159-160)
returns immediately with an empty draw trace — the frame is neither cleared
to the background color nor presented, contradicting the claim that every
call, including on a null surface, clears the frame and makes it visible
through a presentation call (no background-only frame is produced; the
previous frame simply stays visible). -/
theorem render_null_no_clear :
    display_image cfgJpg none = [] ∧
    DrawOp.fill cfgJpg.backgroundColor ∉ display_image cfgJpg none ∧
    DrawOp.flip ∉ display_image cfgJpg none := by
  refine ⟨rfl, ?_, ?_⟩ <;> simp [display_image]

/-- C3, amended: for a non-null surface, `display_image` first clears the
frame to the configured background color, blits the surface centered, and
makes the frame visible through a single presentation call placed after all
drawing; for a null surface it returns immediately, touching the frame not
at all (in particular never exposing a partially drawn frame). -/
theorem display_image_atomic (cfg : RotatorConfig) (surf : Surface) :
    (display_image cfg (some surf)).head? =
      some (DrawOp.fill cfg.backgroundColor) ∧
    DrawOp.blit surf (centeredPos cfg.screenWidth cfg.screenHeight surf) ∈
      display_image cfg (some surf) ∧
    (display_image cfg (some surf)).getLast? = some DrawOp.flip ∧
    (display_image cfg (some surf)).countP isFlip = 1 ∧
    display_image cfg none = [] := by
  refine ⟨rfl, ?_, rfl, ?_, rfl⟩ <;>
    simp [display_image, isFlip, List.countP_cons]

/-! ## C4: empty-list guard asymmetry -/

/-- C4: with an empty image list, the left-arrow branch of `handle_events`
computes `(index - 1) % 0` and raises `ZeroDivisionError`
(bulletin.py:194), while the space/right-arrow branch goes through
`advance_image`, whose guard (bulletin.py:207-208) returns with the state
untouched and nothing rendered: the two manual-advance paths are not
equally guarded. -/
theorem empty_list_left_key_zero_division (s : RotatorState) (now : ℚ)
    (h : s.imageList = []) :
    handle_left_key s = .error .zeroDivisionError ∧
    advance_image s now = .ok (s, none) := by
  constructor
  · simp [handle_left_key, h]
  · simp [advance_image, h]

/-- Witness for C4 at the concrete empty-list state. -/
theorem empty_list_left_key_zero_division_witness :
    (⟨[], 0, 0⟩ : RotatorState).imageList = [] ∧
    (handle_left_key ⟨[], 0, 0⟩ = .error .zeroDivisionError ∧
     advance_image ⟨[], 0, 0⟩ 0 = .ok (⟨[], 0, 0⟩, none)) :=
  ⟨rfl, empty_list_left_key_zero_division ⟨[], 0, 0⟩ 0 rfl⟩

/-! ## C8: pruning -/

/-- C8: `cleanup_local_files` deletes exactly the regular local files whose
name matches a supported extension and is absent from the remote listing
(and whose unlink succeeds — a failed unlink is logged and the walk goes on,
so one failure never aborts the pass). Concretely: with remote `{A.jpg}`
and local `{A.jpg, B.jpg}` exactly `B.jpg` is deleted; and with local
`{A.jpg, B.jpg, C.jpg}` where unlinking `B.jpg` fails, `C.jpg` is still
deleted. -/
theorem cleanup_local_files_exact (fs : List LocalFile)
    (driveFiles : List DriveFile) (supported : List String)
    (unlinkOk : String → Bool) :
    cleanup_local_files fs driveFiles supported unlinkOk =
      fs.filter (fun lf => !((lf.isFile && is_supported_image supported lf.name &&
        !((driveFiles.map DriveFile.name).contains lf.name)) && unlinkOk lf.name)) ∧
    cleanup_local_files [⟨"A.jpg", 0, [1], true⟩, ⟨"B.jpg", 0, [2], true⟩]
      [⟨"i", "A.jpg", 0⟩] [".jpg"] allUnlinkOk = [⟨"A.jpg", 0, [1], true⟩] ∧
    cleanup_local_files
      [⟨"A.jpg", 0, [1], true⟩, ⟨"B.jpg", 0, [2], true⟩, ⟨"C.jpg", 0, [3], true⟩]
      [⟨"i", "A.jpg", 0⟩] [".jpg"] unlinkFailsB =
      [⟨"A.jpg", 0, [1], true⟩, ⟨"B.jpg", 0, [2], true⟩] := by
  refine ⟨?_, by decide, by decide⟩
  induction fs with
  | nil => rfl
  | cons lf rest ih =>
    simp only [cleanup_local_files, List.filter_cons]
    cases hA : (lf.isFile && is_supported_image supported lf.name &&
        !((driveFiles.map DriveFile.name).contains lf.name)) <;>
    cases h4 : unlinkOk lf.name <;>
    simp only [Bool.false_and, Bool.and_false, Bool.and_true, Bool.true_and,
      Bool.not_false, Bool.not_true, if_true, if_false, ite_true, ite_false,
      Bool.false_eq_true, Bool.true_eq_false, ih]

/-! ## C9: empty remote listing -/

/-- C9: with the service available and an empty remote listing, a forced
sync pass fails (`sync` returns `False` at image_fetcher.py:139-141) before
any download or prune, leaving the local directory and `last_sync`
unchanged; exactly one listing was performed. -/
theorem sync_empty_listing_fails (cfg : SyncConfig) (st : SyncState)
    (currentTime writeTime : ℚ) (fetch : String → Option (List Nat))
    (unlinkOk : String → Bool) :
    sync cfg true st true currentTime [] fetch writeTime unlinkOk =
      (false, st, 1) := rfl

/-! ## C7: skip-download heuristic -/

/-- C7: when a local file of the remote record's name exists with an mtime
at least the record's modified time, `download_file` reports success from
the check at image_fetcher.py:80-86, with the directory unchanged and no
transfer attempted. -/
theorem download_file_skip (fs : List LocalFile) (f : DriveFile)
    (fetch : String → Option (List Nat)) (writeTime : ℚ) (lf : LocalFile)
    (hfind : fs.find? (fun x => x.name == f.name) = some lf)
    (hmt : f.modifiedTime ≤ lf.mtime) :
    download_file fs f fetch writeTime = (true, fs, false) := by
  unfold download_file
  rw [hfind]
  simp [hmt]

/-- The spec's concrete skip-path file system: one local file `A` with
mtime 150. -/
def fsA : List LocalFile := [⟨"A", 150, [1, 2, 3], true⟩]

/-- The spec's concrete remote record `{A, t=100}`. -/
def driveA100 : DriveFile := ⟨"id1", "A", 100⟩

/-- Witness for C7: remote `{A, t=100}` against local `A` with mtime 150 is
reported success with unchanged bytes and no transfer. -/
theorem download_file_skip_witness :
    (100 : ℚ) ≤ 150 ∧
    download_file fsA driveA100 noFetch 0 = (true, fsA, false) :=
  ⟨by norm_num,
   download_file_skip fsA driveA100 noFetch 0 ⟨"A", 150, [1, 2, 3], true⟩
     rfl (by norm_num [driveA100])⟩

/-! ## C5: scan returns exactly the supported files -/

/-- C5: on a non-empty directory whose entries are all regular files with
supported extensions, `scan_images` succeeds and returns exactly those
files — in directory iteration order when the shuffle flag is off, and as
a permutation of them (never losing or duplicating an entry) when it is
on. -/
theorem scan_images_exact (cfg : RotatorConfig) (entries : List FileEntry)
    (shuffleFn : List String → List String)
    (hperm : ∀ l, (shuffleFn l).Perm l)
    (hne : entries ≠ [])
    (hall : ∀ e ∈ entries, e.isFile = true ∧
      lower e.suffix ∈ cfg.supportedFormats.map lower) :
    (scan_images cfg entries shuffleFn).1 = true ∧
    (cfg.shuffleImages = false →
      (scan_images cfg entries shuffleFn).2 = entries.map FileEntry.path) ∧
    (cfg.shuffleImages = true →
      ((scan_images cfg entries shuffleFn).2).Perm
        (entries.map FileEntry.path)) := by
  have hfilter : entries.filter (fun e => e.isFile &&
      decide (lower e.suffix ∈ cfg.supportedFormats.map lower)) = entries := by
    rw [List.filter_eq_self]
    intro e he
    have h := hall e he
    simp [h.1, h.2]
  have hsf : scan_filtered cfg entries = entries.map FileEntry.path := by
    unfold scan_filtered
    rw [hfilter]
  have hE : (scan_filtered cfg entries).isEmpty = false := by
    rw [hsf]
    exact isEmpty_false_of_ne_nil (by simpa using hne)
  refine ⟨?_, ?_, ?_⟩
  · simp [scan_images, hE]
  · intro hs
    simp [scan_images, hE, hs, hsf, hne]
  · intro hs
    simp only [scan_images, hE, Bool.false_eq_true, if_false, hs, if_true]
    rw [← hsf]
    exact hperm (scan_filtered cfg entries)

/-- Witness for C5: a one-file directory under the `.jpg`-only,
shuffle-off configuration. -/
theorem scan_images_exact_witness :
    ([⟨"a.jpg", true, ".jpg"⟩] : List FileEntry) ≠ [] ∧
    ((scan_images cfgJpg [⟨"a.jpg", true, ".jpg"⟩] id).1 = true ∧
    (cfgJpg.shuffleImages = false →
      (scan_images cfgJpg [⟨"a.jpg", true, ".jpg"⟩] id).2 =
        ([⟨"a.jpg", true, ".jpg"⟩] : List FileEntry).map FileEntry.path) ∧
    (cfgJpg.shuffleImages = true →
      ((scan_images cfgJpg [⟨"a.jpg", true, ".jpg"⟩] id).2).Perm
        (([⟨"a.jpg", true, ".jpg"⟩] : List FileEntry).map FileEntry.path))) :=
  ⟨by simp,
   scan_images_exact cfgJpg [⟨"a.jpg", true, ".jpg"⟩] id
     (fun l => List.Perm.refl l) (by simp) (by decide)⟩

/-! ## C6: scaling to fit the screen -/

/-- C6: for positive image dimensions, the single scale factor
`min(screenW/imgW, screenH/imgH)` of bulletin.py:137-142 yields output
dimensions that never exceed the screen and whose best-fitting ratio
`max(outW/imgW, outH/imgH)` equals that factor exactly (the dimension
attaining the minimum lands exactly on the screen dimension, so the claim's
"within integer rounding" holds with equality in exact arithmetic). -/
theorem load_and_fit_dims_spec (screenW screenH imgW imgH : Nat)
    (hw : 0 < imgW) (hh : 0 < imgH) :
    (load_and_scale_dims screenW screenH imgW imgH).1 ≤ screenW ∧
    (load_and_scale_dims screenW screenH imgW imgH).2 ≤ screenH ∧
    max (((load_and_scale_dims screenW screenH imgW imgH).1 : ℚ) / (imgW : ℚ))
        (((load_and_scale_dims screenW screenH imgW imgH).2 : ℚ) / (imgH : ℚ)) =
      min ((screenW : ℚ) / (imgW : ℚ)) ((screenH : ℚ) / (imgH : ℚ)) := by
  have hwQ : (0 : ℚ) < (imgW : ℚ) := by exact_mod_cast hw
  have hhQ : (0 : ℚ) < (imgH : ℚ) := by exact_mod_cast hh
  set sx : ℚ := (screenW : ℚ) / (imgW : ℚ) with hsx
  set sy : ℚ := (screenH : ℚ) / (imgH : ℚ) with hsy
  have hsx0 : 0 ≤ sx := div_nonneg (by positivity) (le_of_lt hwQ)
  have hsy0 : 0 ≤ sy := div_nonneg (by positivity) (le_of_lt hhQ)
  have hsc0 : 0 ≤ min sx sy := le_min hsx0 hsy0
  have hWexact : (imgW : ℚ) * sx = (screenW : ℚ) := by
    rw [hsx]
    field_simp
  have hHexact : (imgH : ℚ) * sy = (screenH : ℚ) := by
    rw [hsy]
    field_simp
  have hprodW : 0 ≤ (imgW : ℚ) * min sx sy := by positivity
  have hprodH : 0 ≤ (imgH : ℚ) * min sx sy := by positivity
  have hWle : (imgW : ℚ) * min sx sy ≤ (screenW : ℚ) := by
    calc (imgW : ℚ) * min sx sy ≤ (imgW : ℚ) * sx :=
          mul_le_mul_of_nonneg_left (min_le_left _ _) (le_of_lt hwQ)
      _ = (screenW : ℚ) := hWexact
  have hHle : (imgH : ℚ) * min sx sy ≤ (screenH : ℚ) := by
    calc (imgH : ℚ) * min sx sy ≤ (imgH : ℚ) * sy :=
          mul_le_mul_of_nonneg_left (min_le_right _ _) (le_of_lt hhQ)
      _ = (screenH : ℚ) := hHexact
  have hfW : (⌊(imgW : ℚ) * min sx sy⌋).toNat ≤ screenW := by
    have h1 : ⌊(imgW : ℚ) * min sx sy⌋ ≤ (screenW : ℤ) := by
      have := Int.floor_le_floor hWle
      simpa using this
    omega
  have hfH : (⌊(imgH : ℚ) * min sx sy⌋).toNat ≤ screenH := by
    have h1 : ⌊(imgH : ℚ) * min sx sy⌋ ≤ (screenH : ℤ) := by
      have := Int.floor_le_floor hHle
      simpa using this
    omega
  have castW : (((⌊(imgW : ℚ) * min sx sy⌋).toNat : ℕ) : ℚ) =
      ((⌊(imgW : ℚ) * min sx sy⌋ : ℤ) : ℚ) := by
    have := Int.toNat_of_nonneg (Int.floor_nonneg.mpr hprodW)
    exact_mod_cast congrArg (fun z : ℤ => (z : ℚ)) this
  have castH : (((⌊(imgH : ℚ) * min sx sy⌋).toNat : ℕ) : ℚ) =
      ((⌊(imgH : ℚ) * min sx sy⌋ : ℤ) : ℚ) := by
    have := Int.toNat_of_nonneg (Int.floor_nonneg.mpr hprodH)
    exact_mod_cast congrArg (fun z : ℤ => (z : ℚ)) this
  refine ⟨hfW, hfH, ?_⟩
  show max ((((⌊(imgW : ℚ) * min sx sy⌋).toNat : ℕ) : ℚ) / (imgW : ℚ))
      ((((⌊(imgH : ℚ) * min sx sy⌋).toNat : ℕ) : ℚ) / (imgH : ℚ)) = min sx sy
  rw [castW, castH]
  rcases le_total sx sy with hxy | hyx
  · have hmin : min sx sy = sx := min_eq_left hxy
    rw [hmin] at *
    have hfloorW : ⌊(imgW : ℚ) * sx⌋ = (screenW : ℤ) := by
      rw [hWexact]
      exact Int.floor_natCast screenW
    have hWratio : ((⌊(imgW : ℚ) * sx⌋ : ℤ) : ℚ) / (imgW : ℚ) = sx := by
      rw [hfloorW, hsx]
      norm_num
    have hHratio : ((⌊(imgH : ℚ) * sx⌋ : ℤ) : ℚ) / (imgH : ℚ) ≤ sx := by
      rw [div_le_iff₀ hhQ, mul_comm sx (imgH : ℚ)]
      exact Int.floor_le _
    rw [hWratio]
    exact max_eq_left hHratio
  · have hmin : min sx sy = sy := min_eq_right hyx
    rw [hmin] at *
    have hfloorH : ⌊(imgH : ℚ) * sy⌋ = (screenH : ℤ) := by
      rw [hHexact]
      exact Int.floor_natCast screenH
    have hHratio : ((⌊(imgH : ℚ) * sy⌋ : ℤ) : ℚ) / (imgH : ℚ) = sy := by
      rw [hfloorH, hsy]
      norm_num
    have hWratio : ((⌊(imgW : ℚ) * sy⌋ : ℤ) : ℚ) / (imgW : ℚ) ≤ sy := by
      rw [div_le_iff₀ hwQ, mul_comm sy (imgW : ℚ)]
      exact Int.floor_le _
    rw [hHratio]
    exact max_eq_right hWratio

/-- Witness for C6: a 800x600 image on a 1920x1080 screen scales by
1.8 to 1440x1080. -/
theorem load_and_fit_dims_spec_witness :
    0 < 800 ∧ 0 < 600 ∧
    ((load_and_scale_dims 1920 1080 800 600).1 ≤ 1920 ∧
    (load_and_scale_dims 1920 1080 800 600).2 ≤ 1080 ∧
    max (((load_and_scale_dims 1920 1080 800 600).1 : ℚ) / ((800 : Nat) : ℚ))
        (((load_and_scale_dims 1920 1080 800 600).2 : ℚ) / ((600 : Nat) : ℚ)) =
      min (((1920 : Nat) : ℚ) / ((800 : Nat) : ℚ))
        (((1080 : Nat) : ℚ) / ((600 : Nat) : ℚ))) :=
  ⟨by decide, by decide,
   load_and_fit_dims_spec 1920 1080 800 600 (by decide) (by decide)⟩

/-! ## C10: rate limiting across two calls -/

/-- C10, counterexample: interval 300, `last_sync = 0`. A first
non-forced call at t=1000 lists the (empty) remote folder, fails, and —
because `last_sync` is only updated after a non-empty listing
(image_fetcher.py:139-141 returns before line 152) — a second call one
second later (well within the interval) lists again and also returns
false: two listings are performed and the second call is neither a no-op
returning true, refuting the claim as stated. -/
theorem sync_relists_within_interval :
    sync ⟨300, [".jpg"]⟩ true ⟨0, []⟩ false 1000 [] noFetch 0 allUnlinkOk =
      (false, ⟨0, []⟩, 1) ∧
    sync ⟨300, [".jpg"]⟩ true ⟨0, []⟩ false 1001 [] noFetch 0 allUnlinkOk =
      (false, ⟨0, []⟩, 1) ∧
    (1001 : ℚ) - 1000 < 300 := by
  have ha : ¬ ((1000 : ℚ) - 0 < 300) := by norm_num
  have hb : ¬ ((1001 : ℚ) - 0 < 300) := by norm_num
  refine ⟨?_, ?_, by norm_num⟩
  · unfold sync
    simp [ha, list_folder_files]
    norm_num
  · unfold sync
    simp [hb, list_folder_files]
    norm_num

/-- Closed form of a `sync` pass that reaches the listing and finds it
non-empty: the result bool counts downloads, the state takes the pass's
time and the pruned directory, and exactly one listing happened. -/
theorem sync_pass_eq (cfg : SyncConfig) (st : SyncState) (force : Bool)
    (t : ℚ) (raw : List DriveFile) (fetch : String → Option (List Nat))
    (writeTime : ℚ) (unlinkOk : String → Bool)
    (hgo : force = true ∨ ¬ (t - st.lastSync < cfg.syncInterval))
    (hne : list_folder_files true raw cfg.supportedFormats ≠ []) :
    sync cfg true st force t raw fetch writeTime unlinkOk =
      (decide (0 < (download_all st.fs
          (list_folder_files true raw cfg.supportedFormats) fetch writeTime).1),
       ⟨t, cleanup_local_files
          (download_all st.fs (list_folder_files true raw cfg.supportedFormats)
            fetch writeTime).2
          (list_folder_files true raw cfg.supportedFormats)
          cfg.supportedFormats unlinkOk⟩,
       1) := by
  have hE := isEmpty_false_of_ne_nil hne
  unfold sync
  rcases hgo with hgo | hgo
  · subst hgo
    simp [hE]
  · simp [hgo, hE]

/-- Closed form of a non-forced `sync` call inside the rate-limit window:
a no-op reporting success, with no listing performed. -/
theorem sync_rate_limited_eq (cfg : SyncConfig) (st : SyncState) (t : ℚ)
    (raw : List DriveFile) (fetch : String → Option (List Nat))
    (writeTime : ℚ) (unlinkOk : String → Bool)
    (h : t - st.lastSync < cfg.syncInterval) :
    sync cfg true st false t raw fetch writeTime unlinkOk = (true, st, 0) := by
  unfold sync
  simp [h]

/-- C10, amended: when the first non-forced call passes the rate-limit
check and its listing is non-empty (so line 152 sets `last_sync`, whether
or not any download succeeded), a second call within the configured
interval of the first performs no listing, changes no state, and returns
true — across the two calls the remote listing is performed exactly once.
When the first call's listing is empty, `last_sync` is not updated and the
second call lists again (see the counterexample). -/
theorem sync_rate_limited_second_call (cfg : SyncConfig) (st0 st1 : SyncState)
    (t1 t2 writeTime1 writeTime2 : ℚ) (raw1 raw2 : List DriveFile)
    (fetch : String → Option (List Nat)) (unlinkOk : String → Bool)
    (r1 : Bool) (n1 : Nat)
    (h1 : cfg.syncInterval ≤ t1 - st0.lastSync)
    (hne : list_folder_files true raw1 cfg.supportedFormats ≠ [])
    (hcall1 : sync cfg true st0 false t1 raw1 fetch writeTime1 unlinkOk =
      (r1, st1, n1))
    (h2 : t2 - t1 < cfg.syncInterval) :
    n1 = 1 ∧ st1.lastSync = t1 ∧
    sync cfg true st1 false t2 raw2 fetch writeTime2 unlinkOk =
      (true, st1, 0) := by
  have hnot1 : ¬ (t1 - st0.lastSync < cfg.syncInterval) := not_lt.mpr h1
  rw [sync_pass_eq cfg st0 false t1 raw1 fetch writeTime1 unlinkOk
    (Or.inr hnot1) hne] at hcall1
  rw [Prod.mk.injEq, Prod.mk.injEq] at hcall1
  obtain ⟨hr, hst, hn⟩ := hcall1
  have hlast : st1.lastSync = t1 := by rw [← hst]
  refine ⟨hn.symm, hlast, ?_⟩
  exact sync_rate_limited_eq cfg st1 t2 raw2 fetch writeTime2 unlinkOk
    (by rw [hlast]; exact h2)

/-- The synchronizer configuration used by the C10 witness: a 300-second
interval, `.jpg` only. -/
def cfgSync : SyncConfig := ⟨300, [".jpg"]⟩

/-- The remote record used by the C10 witness. -/
def driveAjpg : DriveFile := ⟨"id", "A.jpg", 100⟩

/-- Witness for C10 (amended): a first call at t=1000 (interval elapsed,
one record listed and downloaded), then a second call at t=1100, inside
the 300-second window: no second listing, no state change, returns true. -/
theorem sync_rate_limited_second_call_witness :
    (300 : ℚ) ≤ 1000 - 0 ∧
    list_folder_files true [driveAjpg] cfgSync.supportedFormats ≠ [] ∧
    sync cfgSync true ⟨0, []⟩ false 1000 [driveAjpg] oneFetch 1000 allUnlinkOk =
      (true, ⟨1000, [⟨"A.jpg", 1000, [7], true⟩]⟩, 1) ∧
    (1100 : ℚ) - 1000 < 300 ∧
    ((1 : Nat) = 1 ∧
     (⟨1000, [⟨"A.jpg", 1000, [7], true⟩]⟩ : SyncState).lastSync = 1000 ∧
     sync cfgSync true ⟨1000, [⟨"A.jpg", 1000, [7], true⟩]⟩ false 1100
       [driveAjpg] oneFetch 1100 allUnlinkOk =
       (true, ⟨1000, [⟨"A.jpg", 1000, [7], true⟩]⟩, 0)) :=
  ⟨by norm_num, by decide,
   by
     rw [sync_pass_eq cfgSync ⟨0, []⟩ false 1000 [driveAjpg] oneFetch 1000
       allUnlinkOk (Or.inr (by norm_num [cfgSync])) (by decide)]
     decide,
   by norm_num,
   sync_rate_limited_second_call cfgSync ⟨0, []⟩
     ⟨1000, [⟨"A.jpg", 1000, [7], true⟩]⟩ 1000 1100 1000 1100
     [driveAjpg] [driveAjpg] oneFetch allUnlinkOk true 1
     (by norm_num [cfgSync]) (by decide)
     (by
       rw [sync_pass_eq cfgSync ⟨0, []⟩ false 1000 [driveAjpg] oneFetch 1000
         allUnlinkOk (Or.inr (by norm_num [cfgSync])) (by decide)]
       decide)
     (by norm_num [cfgSync])⟩

end Bulletin
